import Mathlib

/-!
Shallow embedding of the `stress-test` crate (src/stress-test/src/lib.rs and
src/stress-test/src/main.rs) and proofs about it.

The library exposes four load-test functions.  Each builds a zero-filled
buffer of `len` elements and, for every index `i` in the half-open range
`1..len`, materialises a tensor from the buffer on a device (CPU or CUDA
device 0) and records the pair `(i, tensor.size())`.  The sequential
variants push into a local vector in loop order; the rayon variants push
into an `Arc<Mutex<Vec<_>>>` from parallel workers and afterwards sort the
drained vector by index with `sort_by_key(|k| k.0)`.

Parallel execution is modelled by quantifying over the arrival order of the
workers' append operations (`order`, a permutation of the index range) and
over a per-index outcome of the `results.lock()` call (`lockFail i = some e`
models a poisoned-mutex failure for worker `i`, whose error string the code
wraps as "Mutex lock error: " ++ e).  `Arc::try_unwrap` and
`Mutex::into_inner` are modelled as succeeding after a successful
`try_for_each`: at that point every worker has dropped its clone of the
`Arc` and no panic has poisoned the mutex, so both reclamation steps return
`Ok` on every run the model covers.

The `println!` trace lines are side effects outside the return contract and
are not modelled.
-/

namespace StressTest

/-- Shape of a tensor: the ordered sequence of dimension sizes (`Vec<i64>`
in the source). -/
abbrev Shape := List Int

/-- One `(index, shape)` observation, as pushed by every loop body. -/
abbrev Sample := Nat × Shape

/-- The `LoadTestResult` type alias of lib.rs: `Vec<(usize, Vec<i64>)>`. -/
abbrev LoadTestResult := List Sample

/-- The `LoadTestError` type alias of lib.rs, modelled by its display
string. -/
abbrev LoadTestError := String

/-- The `LoadTestResultType` alias of lib.rs:
`Result<LoadTestResult, LoadTestError>`. -/
abbrev LoadTestResultType := Except LoadTestError LoadTestResult

/-- The `tch::Device` values the crate uses: `Device::Cpu` and
`Device::Cuda(0)`. -/
inductive Device where
  | Cpu : Device
  | Cuda (index : Nat) : Device
deriving DecidableEq

/-- A tensor, modelled by the data it was built from and the device it
lives on. -/
structure Tensor where
  data : List Int
  device : Device
deriving DecidableEq

/-- The `Tensor.from_slice` call: builds a (CPU) tensor holding the slice's
elements. -/
def Tensor.from_slice (slice : List Int) : Tensor :=
  { data := slice, device := Device.Cpu }

/-- The `tensor.to_device(dev)` call: moves the tensor, leaving its data
unchanged. -/
def Tensor.to_device (t : Tensor) (dev : Device) : Tensor :=
  { data := t.data, device := dev }

/-- The `tensor.size()` call: a one-dimensional tensor built from a slice
of length `n` has size `[n]`. -/
def Tensor.size (t : Tensor) : Shape :=
  [(t.data.length : Int)]

/-- The body shared by all four loops in lib.rs:
`let t = Tensor::from_slice(&slice).to_device(dev); (i, t.size())`. -/
def load_test_body (slice : List Int) (dev : Device) (i : Nat) : Sample :=
  let t := (Tensor.from_slice slice).to_device dev
  (i, t.size)

/-- The vector built by the sequential loop
`for i in 1..slice.len() { results.push((i, t.size())) }` over the buffer
`slice = vec![0; len]`. -/
def seq_samples (len : Nat) (dev : Device) : LoadTestResult :=
  let slice := List.replicate len (0 : Int)
  (List.range' 1 (slice.length - 1)).map (load_test_body slice dev)

/-- Common body of `cpu_load_test` and `gpu_load_test`, which are textual
duplicates in lib.rs differing only in the device passed to `to_device`. -/
def load_test_seq (len : Nat) (dev : Device) : LoadTestResultType :=
  Except.ok (seq_samples len dev)

/-- `cpu_load_test` of lib.rs. -/
def cpu_load_test (len : Nat) : LoadTestResultType :=
  load_test_seq len Device.Cpu

/-- `gpu_load_test` of lib.rs. -/
def gpu_load_test (len : Nat) : LoadTestResultType :=
  load_test_seq len (Device.Cuda 0)

/-- The `try_for_each` aggregation of the rayon variants, evaluated along
the arrival order of the workers' appends.  Each worker computes its sample
from the shared read-only buffer, then takes the lock and pushes; a failed
lock acquisition for worker `i` (`lockFail i = some e`) surfaces as
`Err("Mutex lock error: " ++ e)` and aborts the remaining collection, as
`try_for_each` short-circuits on the first `Err`. -/
def try_for_each_collect (body : Nat → Sample) (lockFail : Nat → Option LoadTestError) :
    List Nat → LoadTestResult → Except LoadTestError LoadTestResult
  | [], results => Except.ok results
  | i :: rest, results =>
    match lockFail i with
    | some e => Except.error ("Mutex lock error: " ++ e)
    | none => try_for_each_collect body lockFail rest (results ++ [body i])

/-- The `results.sort_by_key(|k| k.0)` call: a stable sort of the drained
vector by ascending index. -/
def sort_by_key (results : LoadTestResult) : LoadTestResult :=
  results.mergeSort (fun a b => decide (a.1 ≤ b.1))

/-- Common body of `cpu_load_test_rayon` and `gpu_load_test_rayon`, which
are textual duplicates in lib.rs differing only in the device.  `order` is
the arrival order of the workers' appends (a permutation of `1..len` on
real runs) and `lockFail` the per-worker outcome of `results.lock()`. -/
def load_test_rayon (len : Nat) (dev : Device) (order : List Nat)
    (lockFail : Nat → Option LoadTestError) : LoadTestResultType :=
  let slice := List.replicate len (0 : Int)
  match try_for_each_collect (load_test_body slice dev) lockFail order [] with
  | Except.error e => Except.error e
  | Except.ok results => Except.ok (sort_by_key results)

/-- `cpu_load_test_rayon` of lib.rs. -/
def cpu_load_test_rayon (len : Nat) (order : List Nat)
    (lockFail : Nat → Option LoadTestError) : LoadTestResultType :=
  load_test_rayon len Device.Cpu order lockFail

/-- `gpu_load_test_rayon` of lib.rs. -/
def gpu_load_test_rayon (len : Nat) (order : List Nat)
    (lockFail : Nat → Option LoadTestError) : LoadTestResultType :=
  load_test_rayon len (Device.Cuda 0) order lockFail

/-- Rust's `usize::from_str`, the value parser clap applies to the `len`
option: an optional leading plus sign followed by one or more ASCII
digits; any other character — including the underscore digit separator,
which is Rust numeric-literal syntax only — yields an invalid-digit error.
The `usize` overflow bound is not modelled; it is irrelevant to the short
strings this development evaluates. -/
def parse_usize (s : String) : Except String Nat :=
  match s.data with
  | [] => Except.error "cannot parse integer from empty string"
  | c :: cs =>
    let ds := if c = '+' then cs else c :: cs
    if ds ≠ [] ∧ ds.all Char.isDigit then
      Except.ok (ds.foldl (fun n d => 10 * n + (d.toNat - 48)) 0)
    else Except.error "invalid digit found in string"

/-- The default value string attached to the `len` option in main.rs:
`#[clap(short, long, default_value = "10_000")]`. -/
def common_args_len_default : String := "10_000"

/-- clap's resolution of the `len` option of `CommonArgs`: when the option
is omitted on the command line the declared default value string is used in
its place, and the chosen string is run through the `usize` value parser. -/
def resolve_len (provided : Option String) : Except String Nat :=
  parse_usize (provided.getD common_args_len_default)

/-- The `CommonArgs` struct of main.rs after successful parsing. -/
structure CommonArgs where
  len : Nat
deriving DecidableEq

/-- The `Commands` enum of main.rs: the four subcommands. -/
inductive Commands where
  | Cpu (args : CommonArgs) : Commands
  | Tcpu (args : CommonArgs) : Commands
  | Gpu (args : CommonArgs) : Commands
  | Tgpu (args : CommonArgs) : Commands
deriving DecidableEq

/-- Observable outcome of one process run of main.rs: the lines printed to
stdout and stderr, and the process exit code. -/
structure ProcessOutcome where
  stdoutLines : List String
  stderrLines : List String
  exitCode : Nat
deriving DecidableEq

/-- One arm of the `match` in `main`: print the running banner, then match
the generation result, printing the completion line on `Ok` and the
diagnostic on `Err`.  `fn main` returns `()` on both branches, so the
process exit code is 0 either way. -/
def report_outcome (runMsg okMsg errMsg : String) :
    LoadTestResultType → ProcessOutcome
  | Except.ok _ =>
    { stdoutLines := [runMsg, okMsg], stderrLines := [], exitCode := 0 }
  | Except.error e =>
    { stdoutLines := [runMsg], stderrLines := [errMsg ++ e], exitCode := 0 }

/-- The `main` function of main.rs after argument parsing, with the
schedule of the rayon variants (`order`, `lockFail`) made explicit. -/
def main_outcome (command : Option Commands) (order : List Nat)
    (lockFail : Nat → Option LoadTestError) : ProcessOutcome :=
  match command with
  | some (Commands.Cpu a) =>
    report_outcome "Running CPU stress test."
      "CPU stress test completed successfully."
      "Error running CPU stress test: " (cpu_load_test a.len)
  | some (Commands.Tcpu a) =>
    report_outcome "Running GPU stress test with rayon."
      "CPU stress test with rayon completed successfully."
      "Error running CPU stress test with rayon: "
      (cpu_load_test_rayon a.len order lockFail)
  | some (Commands.Gpu a) =>
    report_outcome "Running GPU stress test."
      "GPU stress test completed successfully."
      "Error running GPU stress test: " (gpu_load_test a.len)
  | some (Commands.Tgpu a) =>
    report_outcome "Running GPU stress test with rayon."
      "GPU stress test with rayon completed successfully."
      "Error running GPU stress test with rayon: "
      (gpu_load_test_rayon a.len order lockFail)
  | none =>
    { stdoutLines := ["No command specified."], stderrLines := [], exitCode := 0 }

/-! Helper lemmas shared by the claim theorems. -/

/-- Evaluating the loop body at an index. -/
lemma load_test_body_eval (slice : List Int) (dev : Device) (i : Nat) :
    load_test_body slice dev i = (i, [(slice.length : Int)]) := rfl

/-- The sequential sample list, written without the buffer. -/
lemma seq_samples_eq (len : Nat) (dev : Device) :
    seq_samples len dev =
      (List.range' 1 (len - 1)).map (fun i => (i, ([(len : Int)] : Shape))) := by
  simp [seq_samples, load_test_body, Tensor.from_slice, Tensor.to_device, Tensor.size]

/-- The sequential sample list does not depend on the device. -/
lemma seq_samples_device (len : Nat) (d₁ d₂ : Device) :
    seq_samples len d₁ = seq_samples len d₂ := by
  rw [seq_samples_eq, seq_samples_eq]

/-- Length of the sequential sample list. -/
lemma seq_samples_length (len : Nat) (dev : Device) :
    (seq_samples len dev).length = len - 1 := by
  simp [seq_samples_eq]

/-- Entry `k` of the sequential sample list. -/
lemma seq_samples_getElem (len : Nat) (dev : Device) (k : Nat)
    (hk : k < (seq_samples len dev).length) :
    (seq_samples len dev)[k] = (k + 1, ([(len : Int)] : Shape)) := by
  have hk' : k < ((List.range' 1 (len - 1)).map
      (fun i => (i, ([(len : Int)] : Shape)))).length := by
    simpa [seq_samples_eq] using hk
  have hk'' : k < (List.range' 1 (len - 1)).length := by simpa using hk'
  simp only [seq_samples_eq]
  rw [List.getElem_map]
  rw [List.getElem_range' k hk'']
  simp [Nat.add_comm]

/-- The indices of the sequential sample list are strictly ascending. -/
lemma seq_samples_pairwise (len : Nat) (dev : Device) :
    (seq_samples len dev).Pairwise (fun a b => a.1 < b.1) := by
  rw [seq_samples_eq]
  rw [List.pairwise_map]
  simpa using List.pairwise_lt_range' 1 (len - 1)

/-- A failure-free aggregation run collects the samples in arrival order. -/
lemma try_for_each_collect_ok (body : Nat → Sample)
    (lockFail : Nat → Option LoadTestError) (order : List Nat)
    (acc : LoadTestResult) (hnofail : ∀ i ∈ order, lockFail i = none) :
    try_for_each_collect body lockFail order acc =
      Except.ok (acc ++ order.map body) := by
  induction order generalizing acc with
  | nil => simp [try_for_each_collect]
  | cons j rest ih =>
    have hj : lockFail j = none := hnofail j (List.mem_cons_self j rest)
    rw [try_for_each_collect, hj]
    rw [ih (acc ++ [body j]) (fun i hi => hnofail i (List.mem_cons_of_mem j hi))]
    simp

/-- A successful aggregation run collects exactly the samples of the
arrival order, appended to the accumulator. -/
lemma try_for_each_collect_ok_inv (body : Nat → Sample)
    (lockFail : Nat → Option LoadTestError) (order : List Nat)
    (acc l : LoadTestResult)
    (h : try_for_each_collect body lockFail order acc = Except.ok l) :
    l = acc ++ order.map body := by
  induction order generalizing acc with
  | nil =>
    simp [try_for_each_collect] at h
    simp [h]
  | cons j rest ih =>
    cases hj : lockFail j with
    | some e => rw [try_for_each_collect, hj] at h; exact absurd h (by simp)
    | none =>
      rw [try_for_each_collect, hj] at h
      have := ih (acc ++ [body j]) h
      simpa using this

/-- If some worker's lock acquisition fails, the aggregation run returns an
error. -/
lemma try_for_each_collect_error (body : Nat → Sample)
    (lockFail : Nat → Option LoadTestError) (order : List Nat)
    (acc : LoadTestResult) (i : Nat) (hi : i ∈ order)
    (hf : lockFail i ≠ none) :
    ∃ e, try_for_each_collect body lockFail order acc = Except.error e := by
  induction order generalizing acc with
  | nil => cases hi
  | cons j rest ih =>
    cases hj : lockFail j with
    | some e => exact ⟨_, by rw [try_for_each_collect, hj]⟩
    | none =>
      have hrest : i ∈ rest := by
        rcases List.mem_cons.mp hi with hij | hrest
        · exact absurd (hij ▸ hj) hf
        · exact hrest
      rw [try_for_each_collect, hj]
      exact ih (acc ++ [body j]) hrest

/-- Sorting by key a permutation of a list whose keys are strictly
ascending recovers that list. -/
lemma sort_by_key_eq_of_perm (l tgt : LoadTestResult) (hp : l.Perm tgt)
    (hs : tgt.Pairwise (fun a b => a.1 < b.1)) : sort_by_key l = tgt := by
  have hperm : (sort_by_key l).Perm tgt :=
    (List.mergeSort_perm l (fun a b => decide (a.1 ≤ b.1))).trans hp
  have hle : (sort_by_key l).Pairwise (fun a b : Sample => a.1 ≤ b.1) := by
    have h := @List.sorted_mergeSort Sample (fun a b => decide (a.1 ≤ b.1))
      (fun a b c hab hbc => by
        rw [decide_eq_true_eq] at *
        omega)
      (fun a b => by
        rcases Nat.le_total a.1 b.1 with h | h <;> simp [h]) l
    exact h.imp (fun hab => of_decide_eq_true hab)
  have hnd_tgt : (tgt.map Prod.fst).Nodup :=
    List.pairwise_map.mpr (hs.imp (fun h => Nat.ne_of_lt h))
  have hnd : ((sort_by_key l).map Prod.fst).Nodup :=
    ((hperm.map Prod.fst).symm).nodup hnd_tgt
  have hne : (sort_by_key l).Pairwise (fun a b : Sample => a.1 ≠ b.1) :=
    List.pairwise_map.mp hnd
  have hlt : (sort_by_key l).Pairwise (fun a b : Sample => a.1 < b.1) :=
    (hle.and hne).imp (fun h => Nat.lt_of_le_of_ne h.1 h.2)
  have hanti : IsAntisymm Sample (fun a b => a.1 < b.1 ∨ a = b) := by
    constructor
    rintro a b (h1 | h1) (h2 | h2)
    · omega
    · exact h2.symm
    · exact h1
    · exact h1
  exact @List.eq_of_perm_of_sorted Sample (fun a b => a.1 < b.1 ∨ a = b) hanti
    _ _ hperm (hlt.imp Or.inl) (hs.imp Or.inl)

/-- A failure-free parallel run returns exactly the sequential sample
list. -/
lemma load_test_rayon_ok (len : Nat) (dev : Device) (order : List Nat)
    (lockFail : Nat → Option LoadTestError)
    (horder : order.Perm (List.range' 1 (len - 1)))
    (hnofail : ∀ i ∈ order, lockFail i = none) :
    load_test_rayon len dev order lockFail = Except.ok (seq_samples len dev) := by
  have hslice : (List.replicate len (0 : Int)).length = len :=
    List.length_replicate len 0
  have hcollect := try_for_each_collect_ok
    (load_test_body (List.replicate len (0 : Int)) dev) lockFail order [] hnofail
  have hperm : (order.map (load_test_body (List.replicate len (0 : Int)) dev)).Perm
      (seq_samples len dev) := by
    have := horder.map (load_test_body (List.replicate len (0 : Int)) dev)
    simpa [seq_samples, hslice] using this
  rw [load_test_rayon, hcollect]
  simp only [List.nil_append]
  rw [sort_by_key_eq_of_perm _ _ hperm (seq_samples_pairwise len dev)]

/-- Unfolding of a parallel run to the aggregation-then-sort pipeline. -/
lemma load_test_rayon_def (len : Nat) (dev : Device) (order : List Nat)
    (lockFail : Nat → Option LoadTestError) :
    load_test_rayon len dev order lockFail =
      match try_for_each_collect (load_test_body (List.replicate len (0 : Int)) dev)
          lockFail order [] with
      | Except.error e => Except.error e
      | Except.ok results => Except.ok (sort_by_key results) := rfl

/-- A successful parallel run has exactly `len - 1` samples. -/
lemma load_test_rayon_ok_length (len : Nat) (dev : Device) (order : List Nat)
    (lockFail : Nat → Option LoadTestError)
    (horder : order.Perm (List.range' 1 (len - 1))) (l : LoadTestResult)
    (h : load_test_rayon len dev order lockFail = Except.ok l) :
    l.length = len - 1 := by
  rw [load_test_rayon_def] at h
  cases hc : try_for_each_collect (load_test_body (List.replicate len (0 : Int)) dev)
      lockFail order [] with
  | error e => rw [hc] at h; exact absurd h (by simp)
  | ok rs =>
    rw [hc] at h
    have hl : sort_by_key rs = l := by simpa using h
    have hrs : rs = [] ++ order.map (load_test_body (List.replicate len (0 : Int)) dev) :=
      try_for_each_collect_ok_inv _ _ _ _ _ hc
    have hord : order.length = len - 1 := by simpa using horder.length_eq
    rw [← hl, sort_by_key, List.length_mergeSort, hrs]
    simpa using hord

/-! Claim theorems. -/

/-- C1: for every length N ≥ 2, sequential generation (`cpu_load_test`,
and likewise `gpu_load_test`) returns Ok with the sequential sample list,
which has exactly N-1 samples whose entry at position k is (k+1, [N]) — so
the indices are 1, 2, …, N-1 in strictly ascending order and every
sample's shape equals [N]; in particular for N = 1000 there are 999
samples and the sample at position 499 is (500, [1000]). -/
theorem c1_sequential_generation (N : Nat) (h : 2 ≤ N) :
    cpu_load_test N = Except.ok (seq_samples N Device.Cpu) ∧
    gpu_load_test N = Except.ok (seq_samples N (Device.Cuda 0)) ∧
    ∀ dev : Device,
      (seq_samples N dev).length = N - 1 ∧
      (∀ k, ∀ hk : k < (seq_samples N dev).length,
        (seq_samples N dev)[k] = (k + 1, ([(N : Int)] : Shape))) ∧
      (seq_samples N dev).Pairwise (fun a b => a.1 < b.1) := by
  refine ⟨rfl, rfl, fun dev =>
    ⟨seq_samples_length N dev, ?_, seq_samples_pairwise N dev⟩⟩
  intro k hk
  exact seq_samples_getElem N dev k hk

/-- Witness for C1 at the spec's concrete scenario N = 1000: the run
returns Ok, there are 999 samples, and the sample at position 499 is
(500, [1000]). -/
theorem c1_sequential_generation_witness :
    2 ≤ 1000 ∧
    cpu_load_test 1000 = Except.ok (seq_samples 1000 Device.Cpu) ∧
    gpu_load_test 1000 = Except.ok (seq_samples 1000 (Device.Cuda 0)) ∧
    (seq_samples 1000 Device.Cpu).length = 999 ∧
    (seq_samples 1000 Device.Cpu).getD 499 (0, []) = (500, ([(1000 : Int)] : Shape)) := by
  obtain ⟨h1, h2, h3⟩ := c1_sequential_generation 1000 (by decide)
  obtain ⟨hlen, hget, _⟩ := h3 Device.Cpu
  have hk : 499 < (seq_samples 1000 Device.Cpu).length := by omega
  refine ⟨by decide, h1, h2, by omega, ?_⟩
  rw [List.getD_eq_getElem _ _ hk]
  exact hget 499 hk

/-- C2: for every length N ≥ 2 and fixed device, a failure-free parallel
run — whatever the arrival order of the workers' appends — returns the
same value as the sequential variant for the same N and device, so
parallel execution does not change the returned value. -/
theorem c2_parallel_matches_sequential (N : Nat) (h : 2 ≤ N)
    (order : List Nat) (lockFail : Nat → Option LoadTestError)
    (horder : order.Perm (List.range' 1 (N - 1)))
    (hnofail : ∀ i ∈ order, lockFail i = none) :
    cpu_load_test_rayon N order lockFail = cpu_load_test N ∧
    gpu_load_test_rayon N order lockFail = gpu_load_test N := by
  constructor
  · rw [cpu_load_test_rayon,
      load_test_rayon_ok N Device.Cpu order lockFail horder hnofail]
    rfl
  · rw [gpu_load_test_rayon,
      load_test_rayon_ok N (Device.Cuda 0) order lockFail horder hnofail]
    rfl

/-- Witness for C2 at N = 3 with the reversed arrival order [2, 1]. -/
theorem c2_parallel_matches_sequential_witness :
    2 ≤ 3 ∧
    cpu_load_test_rayon 3 [2, 1] (fun _ => none) = cpu_load_test 3 ∧
    gpu_load_test_rayon 3 [2, 1] (fun _ => none) = gpu_load_test 3 := by
  have h := c2_parallel_matches_sequential 3 (by decide) [2, 1] (fun _ => none)
    (by decide) (fun i _ => rfl)
  exact ⟨by decide, h.1, h.2⟩

/-- C3: for every length N ≤ 1, the sequential and parallel generation
functions all return Ok with an empty result set and no error. -/
theorem c3_small_length_empty (N : Nat) (h : N ≤ 1) (order : List Nat)
    (lockFail : Nat → Option LoadTestError)
    (horder : order.Perm (List.range' 1 (N - 1))) :
    cpu_load_test N = Except.ok [] ∧ gpu_load_test N = Except.ok [] ∧
    cpu_load_test_rayon N order lockFail = Except.ok [] ∧
    gpu_load_test_rayon N order lockFail = Except.ok [] := by
  have hN : N - 1 = 0 := by omega
  have hseq : ∀ dev, seq_samples N dev = [] := by
    intro dev
    rw [seq_samples_eq, hN]
    rfl
  have hord : order = [] := by
    rw [hN] at horder
    exact horder.eq_nil
  subst hord
  refine ⟨?_, ?_, ?_, ?_⟩
  · rw [cpu_load_test, load_test_seq, hseq]
  · rw [gpu_load_test, load_test_seq, hseq]
  · simp [cpu_load_test_rayon, load_test_rayon_def, try_for_each_collect, sort_by_key]
  · simp [gpu_load_test_rayon, load_test_rayon_def, try_for_each_collect, sort_by_key]

/-- Witness for C3 at N = 1 with the empty schedule. -/
theorem c3_small_length_empty_witness :
    (1 : Nat) ≤ 1 ∧
    cpu_load_test 1 = Except.ok [] ∧ gpu_load_test 1 = Except.ok [] ∧
    cpu_load_test_rayon 1 [] (fun _ => none) = Except.ok [] ∧
    gpu_load_test_rayon 1 [] (fun _ => none) = Except.ok [] := by
  have h := c3_small_length_empty 1 (by decide) [] (fun _ => none) (by decide)
  exact ⟨by decide, h.1, h.2.1, h.2.2.1, h.2.2.2⟩

/-- C4: if any worker's lock acquisition fails (the per-index fallible step
of the parallel loops), the parallel generation function returns an error
and the Ok branch carrying previously aggregated samples is never
produced. -/
theorem c4_failure_returns_error (N : Nat) (order : List Nat)
    (lockFail : Nat → Option LoadTestError) (i : Nat) (hi : i ∈ order)
    (hf : lockFail i ≠ none) :
    (∃ e, cpu_load_test_rayon N order lockFail = Except.error e) ∧
    (∃ e, gpu_load_test_rayon N order lockFail = Except.error e) ∧
    (cpu_load_test_rayon N order lockFail).isOk = false ∧
    (gpu_load_test_rayon N order lockFail).isOk = false := by
  obtain ⟨e₁, he₁⟩ := try_for_each_collect_error
    (load_test_body (List.replicate N (0 : Int)) Device.Cpu) lockFail order [] i hi hf
  obtain ⟨e₂, he₂⟩ := try_for_each_collect_error
    (load_test_body (List.replicate N (0 : Int)) (Device.Cuda 0)) lockFail order [] i hi hf
  have hc : cpu_load_test_rayon N order lockFail = Except.error e₁ := by
    rw [cpu_load_test_rayon, load_test_rayon_def, he₁]
  have hg : gpu_load_test_rayon N order lockFail = Except.error e₂ := by
    rw [gpu_load_test_rayon, load_test_rayon_def, he₂]
  exact ⟨⟨e₁, hc⟩, ⟨e₂, hg⟩, by rw [hc]; rfl, by rw [hg]; rfl⟩

/-- Witness for C4: worker 2 hits a poisoned mutex, so the N = 3 parallel
runs are not Ok. -/
theorem c4_failure_returns_error_witness :
    (2 : Nat) ∈ [1, 2] ∧
    (fun j => if j = 2 then some "poisoned" else none) 2 ≠ (none : Option LoadTestError) ∧
    (cpu_load_test_rayon 3 [1, 2]
      (fun j => if j = 2 then some "poisoned" else none)).isOk = false ∧
    (gpu_load_test_rayon 3 [1, 2]
      (fun j => if j = 2 then some "poisoned" else none)).isOk = false := by
  have h := c4_failure_returns_error 3 [1, 2]
    (fun j => if j = 2 then some "poisoned" else none) 2 (by decide) (by decide)
  exact ⟨by decide, by decide, h.2.2.1, h.2.2.2⟩

/-- C5: generation is deterministic — the sequential functions are pure
functions of N, and two failure-free parallel runs with the same N but
arbitrary (possibly different) schedules return equal results, so no
hidden state or scheduling accident influences the returned value. -/
theorem c5_schedule_independent (N : Nat) (o₁ o₂ : List Nat)
    (f₁ f₂ : Nat → Option LoadTestError)
    (h₁ : o₁.Perm (List.range' 1 (N - 1)))
    (h₂ : o₂.Perm (List.range' 1 (N - 1)))
    (hf₁ : ∀ i ∈ o₁, f₁ i = none) (hf₂ : ∀ i ∈ o₂, f₂ i = none) :
    cpu_load_test_rayon N o₁ f₁ = cpu_load_test_rayon N o₂ f₂ ∧
    gpu_load_test_rayon N o₁ f₁ = gpu_load_test_rayon N o₂ f₂ := by
  constructor
  · rw [cpu_load_test_rayon, cpu_load_test_rayon,
      load_test_rayon_ok N Device.Cpu o₁ f₁ h₁ hf₁,
      load_test_rayon_ok N Device.Cpu o₂ f₂ h₂ hf₂]
  · rw [gpu_load_test_rayon, gpu_load_test_rayon,
      load_test_rayon_ok N (Device.Cuda 0) o₁ f₁ h₁ hf₁,
      load_test_rayon_ok N (Device.Cuda 0) o₂ f₂ h₂ hf₂]

/-- Witness for C5 at N = 3 with the two opposite arrival orders. -/
theorem c5_schedule_independent_witness :
    cpu_load_test_rayon 3 [1, 2] (fun _ => none) =
      cpu_load_test_rayon 3 [2, 1] (fun _ => none) ∧
    gpu_load_test_rayon 3 [1, 2] (fun _ => none) =
      gpu_load_test_rayon 3 [2, 1] (fun _ => none) :=
  c5_schedule_independent 3 [1, 2] [2, 1] (fun _ => none) (fun _ => none)
    (by decide) (by decide) (fun i _ => rfl) (fun i _ => rfl)

/-- C6: for every length N ≥ 1, a successful run of either mode returns
exactly N-1 samples: the loop ranges over i in 1..N, one sample per i. -/
theorem c6_result_length (N : Nat) (h : 1 ≤ N) (order : List Nat)
    (lockFail : Nat → Option LoadTestError)
    (horder : order.Perm (List.range' 1 (N - 1))) :
    (∀ l, cpu_load_test N = Except.ok l → l.length = N - 1) ∧
    (∀ l, gpu_load_test N = Except.ok l → l.length = N - 1) ∧
    (∀ l, cpu_load_test_rayon N order lockFail = Except.ok l → l.length = N - 1) ∧
    (∀ l, gpu_load_test_rayon N order lockFail = Except.ok l → l.length = N - 1) := by
  refine ⟨?_, ?_, ?_, ?_⟩
  · intro l hl
    have : seq_samples N Device.Cpu = l := by
      simpa [cpu_load_test, load_test_seq] using hl
    rw [← this, seq_samples_length]
  · intro l hl
    have : seq_samples N (Device.Cuda 0) = l := by
      simpa [gpu_load_test, load_test_seq] using hl
    rw [← this, seq_samples_length]
  · intro l hl
    exact load_test_rayon_ok_length N Device.Cpu order lockFail horder l hl
  · intro l hl
    exact load_test_rayon_ok_length N (Device.Cuda 0) order lockFail horder l hl

/-- Witness for C6 at N = 4 with arrival order [3, 1, 2]: 3 samples. -/
theorem c6_result_length_witness :
    1 ≤ 4 ∧ (seq_samples 4 Device.Cpu).length = 3 := by
  have h := c6_result_length 4 (by decide) [3, 1, 2] (fun _ => none) (by decide)
  exact ⟨by decide, h.1 (seq_samples 4 Device.Cpu) rfl⟩

/-- C7: each subcommand takes the integer option `len`, but when the
option is omitted the declared default value string "10_000" is fed to the
`usize` value parser, which rejects the underscore — so `len` does not
take the value 10000, the parse fails instead.  The string "10000" the
module documentation intends would have parsed to 10000. -/
theorem c7_default_len_value_rejected :
    common_args_len_default = "10_000" ∧
    resolve_len none = Except.error "invalid digit found in string" ∧
    parse_usize "10000" = Except.ok 10000 ∧
    resolve_len (some "1000") = Except.ok 1000 := by
  exact ⟨rfl, rfl, rfl, rfl⟩

/-- C8: whatever command is parsed and whatever the generation functions
return, the process exit code is 0; when a parallel generation call
returns an error, its diagnostic is printed to the error stream while the
exit code still signals success. -/
theorem c8_error_exit_status (command : Option Commands) (order : List Nat)
    (lockFail : Nat → Option LoadTestError) :
    (main_outcome command order lockFail).exitCode = 0 ∧
    (∀ a e, command = some (Commands.Tcpu a) →
      cpu_load_test_rayon a.len order lockFail = Except.error e →
      (main_outcome command order lockFail).stderrLines =
        ["Error running CPU stress test with rayon: " ++ e]) ∧
    (∀ a e, command = some (Commands.Tgpu a) →
      gpu_load_test_rayon a.len order lockFail = Except.error e →
      (main_outcome command order lockFail).stderrLines =
        ["Error running GPU stress test with rayon: " ++ e]) := by
  refine ⟨?_, ?_, ?_⟩
  · cases command with
    | none => rfl
    | some c =>
      cases c with
      | Cpu a => rfl
      | Gpu a => rfl
      | Tcpu a =>
        cases hr : cpu_load_test_rayon a.len order lockFail with
        | ok l => simp [main_outcome, hr, report_outcome]
        | error e => simp [main_outcome, hr, report_outcome]
      | Tgpu a =>
        cases hr : gpu_load_test_rayon a.len order lockFail with
        | ok l => simp [main_outcome, hr, report_outcome]
        | error e => simp [main_outcome, hr, report_outcome]
  · intro a e hcmd hres
    subst hcmd
    simp [main_outcome, hres, report_outcome]
  · intro a e hcmd hres
    subst hcmd
    simp [main_outcome, hres, report_outcome]

/-- Witness for C8: with a poisoned mutex at worker 1 the tcpu command
prints the diagnostic to stderr yet exits with status 0. -/
theorem c8_error_exit_status_witness :
    (main_outcome (some (Commands.Tcpu ⟨3⟩)) [1, 2]
      (fun j => if j = 1 then some "poisoned" else none)).exitCode = 0 ∧
    (main_outcome (some (Commands.Tcpu ⟨3⟩)) [1, 2]
      (fun j => if j = 1 then some "poisoned" else none)).stderrLines =
      ["Error running CPU stress test with rayon: Mutex lock error: poisoned"] := by
  have h := c8_error_exit_status (some (Commands.Tcpu ⟨3⟩)) [1, 2]
    (fun j => if j = 1 then some "poisoned" else none)
  refine ⟨h.1, ?_⟩
  have hd := h.2.1 ⟨3⟩ "Mutex lock error: poisoned" rfl rfl
  rw [hd]
  rfl

/-- C9: for every length, the sequential generation functions return Ok —
their bodies contain no fallible step, so the Err branch is unreachable on
the sequential paths. -/
theorem c9_sequential_always_ok (len : Nat) :
    cpu_load_test len = Except.ok (seq_samples len Device.Cpu) ∧
    gpu_load_test len = Except.ok (seq_samples len (Device.Cuda 0)) ∧
    (cpu_load_test len).isOk = true ∧ (gpu_load_test len).isOk = true :=
  ⟨rfl, rfl, rfl, rfl⟩

/-- C10: the returned value is independent of the device: the CPU and GPU
variants agree for every length, and the parallel CPU and GPU variants
agree for every length and schedule — device placement affects only where
the tensor lives, not the (index, shape) pairs returned. -/
theorem c10_device_independent (len : Nat) (order : List Nat)
    (lockFail : Nat → Option LoadTestError) :
    cpu_load_test len = gpu_load_test len ∧
    cpu_load_test_rayon len order lockFail = gpu_load_test_rayon len order lockFail := by
  have hb : load_test_body (List.replicate len (0 : Int)) Device.Cpu =
      load_test_body (List.replicate len (0 : Int)) (Device.Cuda 0) :=
    funext fun i => rfl
  constructor
  · rw [cpu_load_test, gpu_load_test, load_test_seq, load_test_seq,
      seq_samples_device len Device.Cpu (Device.Cuda 0)]
  · rw [cpu_load_test_rayon, gpu_load_test_rayon, load_test_rayon_def,
      load_test_rayon_def, hb]

end StressTest
